import Mathlib

/-!
Shallow embedding of the Raspberry Pi Pico W ventilation controller
(`Raspberry_PicoW/main.ino`): the calibration store, the relay and servo
state, and the HTTP request handlers, modelled as pure functions over an
explicit device state.  Arduino `String` operations used by the handlers
(`indexOf`, `substring`, `trim`, `toInt`) are modelled over `List Char`,
with `toInt` following the C `atol` semantics that Arduino's
`String::toInt` delegates to.
-/

namespace Pico

/-- Characters treated as whitespace by C `isspace` (and hence by Arduino
`String::trim` and by `atol`'s leading-whitespace skip). -/
def isSpaceChar (c : Char) : Bool :=
  c = ' ' || c = '\t' || c = '\n' || c = '\x0b' || c = '\x0c' || c = '\r'

/-- Value of a digit string read left to right (no sign handling). -/
def digitsToNat (cs : List Char) : Nat :=
  cs.foldl (fun a c => 10 * a + (c.toNat - 48)) 0

/-- C `atol`, the semantics of Arduino `String::toInt`: skip leading
whitespace, an optional sign, then read a maximal run of digits; a string
whose first non-space character is not a digit or sign yields 0.
(Overflow of C `long` is not modelled; all inputs in this development are
far below that range.) -/
def atol (cs : List Char) : Int :=
  let t := cs.dropWhile isSpaceChar
  match t with
  | '-' :: rest => - ((digitsToNat (rest.takeWhile Char.isDigit) : Int))
  | '+' :: rest => ((digitsToNat (rest.takeWhile Char.isDigit) : Int))
  | _ => ((digitsToNat (t.takeWhile Char.isDigit) : Int))

/-- Whether `pat` occurs at the front of `cs` (character-wise). -/
def beginsWith : List Char → List Char → Bool
  | [], _ => true
  | _ :: _, [] => false
  | a :: pat, c :: cs => a = c && beginsWith pat cs

/-- First index `≥ i` (counting from the given accumulator `i`) at which
`needle` occurs in the remaining text. -/
def findFrom (needle : List Char) : List Char → Nat → Option Nat
  | [], i => if beginsWith needle [] then some i else none
  | c :: rest, i =>
      if beginsWith needle (c :: rest) then some i
      else findFrom needle rest (i + 1)

/-- Arduino `String::indexOf(needle, start)`: first occurrence of `needle`
in `hay` at an index `≥ start`, or `none` (the source's `-1`). -/
def indexOfFrom (hay needle : List Char) (start : Nat) : Option Nat :=
  (findFrom needle (hay.drop start) 0).map (fun k => start + k)

/-- Arduino `String::substring(left, right)`: characters at indices
`[left, right)`. -/
def substringL (cs : List Char) (left right : Nat) : List Char :=
  (cs.take right).drop left

/-- Arduino `String::trim`: strip leading and trailing whitespace. -/
def trim (cs : List Char) : List Char :=
  ((cs.dropWhile isSpaceChar).reverse.dropWhile isSpaceChar).reverse

/-- The `Settings` struct persisted in EEPROM: the three calibration
angles (C `int` fields, modelled as `Int`). -/
structure Settings where
  angleOpen : Int
  angleClose : Int
  anglePark : Int
deriving Repr, DecidableEq

/-- `loadSettingsFromEEPROM`: read the raw struct and replace each field
found outside `[0, 180]` by its default (180 / 0 / 32). -/
def loadSettingsFromEEPROM (raw : Settings) : Settings :=
  { angleOpen := if raw.angleOpen < 0 ∨ raw.angleOpen > 180 then 180 else raw.angleOpen,
    angleClose := if raw.angleClose < 0 ∨ raw.angleClose > 180 then 0 else raw.angleClose,
    anglePark := if raw.anglePark < 0 ∨ raw.anglePark > 180 then 32 else raw.anglePark }

/-- All three calibration fields lie in `[0, 180]`. -/
def settingsInRange (st : Settings) : Prop :=
  (st.angleOpen ≥ 0 ∧ st.angleOpen ≤ 180) ∧
  (st.angleClose ≥ 0 ∧ st.angleClose ≤ 180) ∧
  (st.anglePark ≥ 0 ∧ st.anglePark ≤ 180)

/-- Relay pin constants from the source. -/
def relayPinLow : Nat := 17

/-- Relay pin constant for the medium-speed relay. -/
def relayPinMedium : Nat := 19

/-- Arduino `HIGH` output level (relays are active-low, so `HIGH` means
de-energized). -/
def HIGH : Bool := true

/-- Arduino `LOW` output level (energizes an active-low relay). -/
def LOW : Bool := false

/-- The controller's global state: the two relay state booleans, the last
commanded servo angle, the ventilation bookkeeping flags, the in-memory
`settings` struct and the persisted EEPROM copy. -/
structure DeviceState where
  relayLowState : Bool
  relayMediumState : Bool
  currentAngle : Int
  isVentActive : Bool
  ventSpeed : String
  settings : Settings
  eeprom : Settings
deriving Repr, DecidableEq

/-- Observable side effects of a handler, in program order. -/
inductive Event where
  | servoWrite (angle : Int)
  | delayMs (ms : Nat)
  | digitalWrite (pin : Nat) (level : Bool)
  | eepromCommit
  | send (code : Nat) (body : String)
deriving Repr, DecidableEq

/-- An HTTP response: status code and plain-text or JSON body. -/
structure HttpResponse where
  code : Nat
  body : String
deriving Repr, DecidableEq

/-- Result of running one request handler: the new global state, the
response sent, and the trace of side effects in order (the `send` that
acknowledges the request included). -/
structure HandlerResult where
  state : DeviceState
  response : HttpResponse
  trace : List Event
deriving Repr, DecidableEq

/-- `handleRelayToggle`: flip both relays together (legacy path).  If
either relay is energized, de-energize both and set the bookkeeping to
`"off"`/inactive; otherwise energize both and set it to `"max"`/active.
The reply is computed from the post-toggle relay states. -/
def handleRelayToggle (s : DeviceState) : HandlerResult :=
  if s.relayLowState || s.relayMediumState then
    { state := { s with relayLowState := false, relayMediumState := false,
                        ventSpeed := "off", isVentActive := false },
      response := ⟨200, "0"⟩,
      trace := [Event.digitalWrite relayPinLow HIGH,
                Event.digitalWrite relayPinMedium HIGH,
                Event.send 200 "0"] }
  else
    { state := { s with relayLowState := true, relayMediumState := true,
                        ventSpeed := "max", isVentActive := true },
      response := ⟨200, "1"⟩,
      trace := [Event.digitalWrite relayPinLow LOW,
                Event.digitalWrite relayPinMedium LOW,
                Event.send 200 "1"] }

/-- `handleServoSet`: raw positioning.  `angleArg` is the `angle` query
parameter when present (`server.hasArg`/`server.arg`); its text is
converted with `String::toInt` and range-checked before the servo is
moved. -/
def handleServoSet (angleArg : Option String) (s : DeviceState) : HandlerResult :=
  match angleArg with
  | some a =>
      let angle := atol a.data
      if angle ≥ 0 ∧ angle ≤ 180 then
        { state := { s with currentAngle := angle },
          response := ⟨200, "OK"⟩,
          trace := [Event.servoWrite angle, Event.send 200 "OK"] }
      else
        { state := s, response := ⟨400, "Invalid angle"⟩,
          trace := [Event.send 400 "Invalid angle"] }
  | none =>
      { state := s, response := ⟨400, "Missing angle parameter"⟩,
        trace := [Event.send 400 "Missing angle parameter"] }

/-- `handleVentLow`: speed low — open the damper, low relay on, medium
relay off. -/
def handleVentLow (s : DeviceState) : HandlerResult :=
  { state := { s with ventSpeed := "low", isVentActive := true,
                      currentAngle := s.settings.angleOpen,
                      relayLowState := true, relayMediumState := false },
    response := ⟨200, "OK"⟩,
    trace := [Event.servoWrite s.settings.angleOpen,
              Event.digitalWrite relayPinLow LOW,
              Event.digitalWrite relayPinMedium HIGH,
              Event.send 200 "OK"] }

/-- `handleVentMedium`: speed medium — open the damper, low relay off,
medium relay on. -/
def handleVentMedium (s : DeviceState) : HandlerResult :=
  { state := { s with ventSpeed := "medium", isVentActive := true,
                      currentAngle := s.settings.angleOpen,
                      relayLowState := false, relayMediumState := true },
    response := ⟨200, "OK"⟩,
    trace := [Event.servoWrite s.settings.angleOpen,
              Event.digitalWrite relayPinLow HIGH,
              Event.digitalWrite relayPinMedium LOW,
              Event.send 200 "OK"] }

/-- `handleVentMax`: speed max — open the damper, both relays on. -/
def handleVentMax (s : DeviceState) : HandlerResult :=
  { state := { s with ventSpeed := "max", isVentActive := true,
                      currentAngle := s.settings.angleOpen,
                      relayLowState := true, relayMediumState := true },
    response := ⟨200, "OK"⟩,
    trace := [Event.servoWrite s.settings.angleOpen,
              Event.digitalWrite relayPinLow LOW,
              Event.digitalWrite relayPinMedium LOW,
              Event.send 200 "OK"] }

/-- `handleVentOff`: de-energize both relays, drive the servo to the
close angle, block 2000 ms, drive it to the park angle, then acknowledge. -/
def handleVentOff (s : DeviceState) : HandlerResult :=
  { state := { s with isVentActive := false, ventSpeed := "off",
                      relayLowState := false, relayMediumState := false,
                      currentAngle := s.settings.anglePark },
    response := ⟨200, "OK"⟩,
    trace := [Event.digitalWrite relayPinLow HIGH,
              Event.digitalWrite relayPinMedium HIGH,
              Event.servoWrite s.settings.angleClose,
              Event.delayMs 2000,
              Event.servoWrite s.settings.anglePark,
              Event.send 200 "OK"] }

/-- The JSON body assembled by `handleStatus` by string concatenation
(`String(int)` renders decimally, as `Int`'s `toString` does). -/
def statusJson (s : DeviceState) : String :=
  "\x7b\"ventActive\":" ++ (if s.isVentActive then "true" else "false") ++
  ",\"ventSpeed\":\"" ++ s.ventSpeed ++ "\"" ++
  ",\"relayLow\":" ++ (if s.relayLowState then "true" else "false") ++
  ",\"relayMedium\":" ++ (if s.relayMediumState then "true" else "false") ++
  ",\"currentAngle\":" ++ toString s.currentAngle ++
  ",\"settings\":\x7b" ++
  "\"angleOpen\":" ++ toString s.settings.angleOpen ++
  ",\"angleClose\":" ++ toString s.settings.angleClose ++
  ",\"anglePark\":" ++ toString s.settings.anglePark ++
  "\x7d\x7d"

/-- `handleStatus`: report the full state snapshot; no state change. -/
def handleStatus (s : DeviceState) : HandlerResult :=
  { state := s, response := ⟨200, statusJson s⟩,
    trace := [Event.send 200 (statusJson s)] }

/-- One field block of `handleSettingsSave` (the source repeats this block
for each of the three fields): find `marker` in the body, advance by the
hard-coded `skip` (11 / 12 / 11 in the source), scan to the next `delim`
(`,` / `,` / `\x7d`), trim and `toInt` the slice, and keep it only when it
lies in `[0, 180]`; otherwise keep `current`. -/
def parseField (json marker : List Char) (skip : Nat) (delim : Char)
    (current : Int) : Int :=
  match indexOfFrom json marker 0 with
  | none => current
  | some pos =>
      let startPos := pos + skip
      match indexOfFrom json [delim] startPos with
      | none => current
      | some endPos =>
          let valueStr := trim (substringL json startPos endPos)
          let value := atol valueStr
          if value ≥ 0 ∧ value ≤ 180 then value else current

/-- `handleSettingsSave`: `body` is the request body when present
(`server.hasArg("plain")`).  Temporaries start at the current settings,
each parsed field overwrites its temporary only when in `[0, 180]`, and
the triple is stored and committed to EEPROM only if all three
temporaries pass the final range check. -/
def handleSettingsSave (body : Option String) (s : DeviceState) : HandlerResult :=
  match body with
  | some json =>
      let newAngleOpen :=
        parseField json.data (String.data "\"angleOpen\":") 11 ',' s.settings.angleOpen
      let newAngleClose :=
        parseField json.data (String.data "\"angleClose\":") 12 ',' s.settings.angleClose
      let newAnglePark :=
        parseField json.data (String.data "\"anglePark\":") 11 '\x7d' s.settings.anglePark
      if (newAngleOpen ≥ 0 ∧ newAngleOpen ≤ 180) ∧
         (newAngleClose ≥ 0 ∧ newAngleClose ≤ 180) ∧
         (newAnglePark ≥ 0 ∧ newAnglePark ≤ 180) then
        { state := { s with
            settings := { angleOpen := newAngleOpen, angleClose := newAngleClose,
                          anglePark := newAnglePark },
            eeprom := { angleOpen := newAngleOpen, angleClose := newAngleClose,
                        anglePark := newAnglePark } },
          response := ⟨200, "OK"⟩,
          trace := [Event.eepromCommit, Event.send 200 "OK"] }
      else
        { state := s, response := ⟨400, "Invalid angle values"⟩,
          trace := [Event.send 400 "Invalid angle values"] }
  | none =>
      { state := s, response := ⟨400, "No data received"⟩,
        trace := [Event.send 400 "No data received"] }

/-- The HTTP routes wired up in `setup()` (the static page at `/` is
presentation only and carries no state). -/
inductive Request where
  | relayToggle
  | servoSet (angleArg : Option String)
  | ventLow
  | ventMedium
  | ventMax
  | ventOff
  | status
  | settingsSave (body : Option String)
deriving Repr, DecidableEq

/-- Route a request to its handler, as `server.on` does. -/
def dispatch : Request → DeviceState → HandlerResult
  | Request.relayToggle, s => handleRelayToggle s
  | Request.servoSet a, s => handleServoSet a s
  | Request.ventLow, s => handleVentLow s
  | Request.ventMedium, s => handleVentMedium s
  | Request.ventMax, s => handleVentMax s
  | Request.ventOff, s => handleVentOff s
  | Request.status, s => handleStatus s
  | Request.settingsSave b, s => handleSettingsSave b s

/-- State after `setup()` given the raw EEPROM contents: settings are
loaded and validated, both relays start de-energized, the startup
sequence parks the servo, and the bookkeeping starts at `"off"`/inactive. -/
def initialState (raw : Settings) : DeviceState :=
  { relayLowState := false, relayMediumState := false,
    currentAngle := (loadSettingsFromEEPROM raw).anglePark,
    isVentActive := false, ventSpeed := "off",
    settings := loadSettingsFromEEPROM raw,
    eeprom := raw }

/-- EEPROM contents holding the documented defaults, and the boot state
built from them. -/
def defaultRaw : Settings := { angleOpen := 180, angleClose := 0, anglePark := 32 }

/-- The boot state used as the concrete scenario state. -/
def bootState : DeviceState := initialState defaultRaw

/-- The request body of the calibration round-trip scenario. -/
def roundTripBody : String :=
  "\x7b\"angleOpen\":170, \"angleClose\":5, \"anglePark\":40\x7d"

/-- A request body whose `angleClose` field is `-1`. -/
def negativeCloseBody : String :=
  "\x7b\"angleOpen\":170, \"angleClose\":-1, \"anglePark\":40\x7d"

/-- C1: At the claimed input, saving `\x7b"angleOpen":170, "angleClose":5,
"anglePark":40\x7d` from the boot state does NOT store 170/5/40: the
handler's `startPos += 11` lands on the `:` of the 12-character marker
`"angleOpen":` (and likewise for the other two fields), so the extracted
slices are `:170`, `:5`, `:40`, whose `toInt` is 0; the handler stores
(0, 0, 0), replies 200 "OK", and a subsequent `/status` reports all three
settings as 0. -/
theorem settingsSave_roundtrip_observed :
    (handleSettingsSave (some roundTripBody) bootState).response = ⟨200, "OK"⟩ ∧
    (handleSettingsSave (some roundTripBody) bootState).state.settings =
      { angleOpen := 0, angleClose := 0, anglePark := 0 } ∧
    (handleStatus (handleSettingsSave (some roundTripBody) bootState).state).response.body =
      "\x7b\"ventActive\":false,\"ventSpeed\":\"off\",\"relayLow\":false,\"relayMedium\":false,\"currentAngle\":32,\"settings\":\x7b\"angleOpen\":0,\"angleClose\":0,\"anglePark\":0\x7d\x7d" :=
  ⟨rfl, rfl, rfl⟩

/-- C2: At a body whose `angleClose` is `-1`, the handler does NOT reply
400 and does NOT leave the calibration unchanged: the off-by-one slice
`:-1` converts to 0 via `toInt`, passes the per-field range check, and the
handler stores (0, 0, 0) — changing `angleOpen` from 180 to 0 and
`anglePark` from 32 to 0 — and replies 200 "OK". -/
theorem settingsSave_negative_field_observed :
    (handleSettingsSave (some negativeCloseBody) bootState).response = ⟨200, "OK"⟩ ∧
    (handleSettingsSave (some negativeCloseBody) bootState).state.settings =
      { angleOpen := 0, angleClose := 0, anglePark := 0 } ∧
    bootState.settings = { angleOpen := 180, angleClose := 0, anglePark := 32 } :=
  ⟨rfl, rfl, rfl⟩

/-- C3: After each of `/vent/low`, `/vent/medium`, `/vent/max` from any
state: `active` is true, `speed` is the requested one, `currentAngle`
equals the calibrated open angle, and the relay pair (low, medium) is
(on, off) for low, (off, on) for medium, (on, on) for max. -/
theorem vent_speed_commands (s : DeviceState) :
    ((handleVentLow s).state.isVentActive = true ∧
     (handleVentLow s).state.ventSpeed = "low" ∧
     (handleVentLow s).state.currentAngle = s.settings.angleOpen ∧
     (handleVentLow s).state.relayLowState = true ∧
     (handleVentLow s).state.relayMediumState = false) ∧
    ((handleVentMedium s).state.isVentActive = true ∧
     (handleVentMedium s).state.ventSpeed = "medium" ∧
     (handleVentMedium s).state.currentAngle = s.settings.angleOpen ∧
     (handleVentMedium s).state.relayLowState = false ∧
     (handleVentMedium s).state.relayMediumState = true) ∧
    ((handleVentMax s).state.isVentActive = true ∧
     (handleVentMax s).state.ventSpeed = "max" ∧
     (handleVentMax s).state.currentAngle = s.settings.angleOpen ∧
     (handleVentMax s).state.relayLowState = true ∧
     (handleVentMax s).state.relayMediumState = true) :=
  ⟨⟨rfl, rfl, rfl, rfl, rfl⟩, ⟨rfl, rfl, rfl, rfl, rfl⟩, ⟨rfl, rfl, rfl, rfl, rfl⟩⟩

/-- C4: From every starting state, `/vent/off` ends with `active` false,
`speed` "off", both relays de-energized and `currentAngle` equal to the
calibrated park angle, and its side-effect trace commands the servo first
to the close angle, then after the 2000 ms settle delay to the park
angle, all before the acknowledging `send`. -/
theorem ventOff_sequence (s : DeviceState) :
    (handleVentOff s).state.isVentActive = false ∧
    (handleVentOff s).state.ventSpeed = "off" ∧
    (handleVentOff s).state.relayLowState = false ∧
    (handleVentOff s).state.relayMediumState = false ∧
    (handleVentOff s).state.currentAngle = s.settings.anglePark ∧
    (handleVentOff s).trace =
      [Event.digitalWrite relayPinLow HIGH,
       Event.digitalWrite relayPinMedium HIGH,
       Event.servoWrite s.settings.angleClose,
       Event.delayMs 2000,
       Event.servoWrite s.settings.anglePark,
       Event.send 200 "OK"] :=
  ⟨rfl, rfl, rfl, rfl, rfl, rfl⟩

/-- C5: `/servo/set?angle=200` replies 400 "Invalid angle" with no state
change; `/servo/set?angle=90` replies "OK", sets `currentAngle` to 90 and
touches nothing else; a request with no `angle` parameter replies 400
"Missing angle parameter" with no state change. -/
theorem servoSet_behavior (s : DeviceState) :
    (handleServoSet (some "200") s).response = ⟨400, "Invalid angle"⟩ ∧
    (handleServoSet (some "200") s).state = s ∧
    (handleServoSet (some "90") s).response = ⟨200, "OK"⟩ ∧
    (handleServoSet (some "90") s).state = { s with currentAngle := 90 } ∧
    (handleServoSet none s).response = ⟨400, "Missing angle parameter"⟩ ∧
    (handleServoSet none s).state = s :=
  ⟨rfl, rfl, rfl, rfl, rfl, rfl⟩

/-- C6 counterexample: from the boot state (both relays de-energized,
`ventSpeed` "off"), `/relay/toggle` DOES update the speed bookkeeping —
`ventSpeed` changes (to "max"), contradicting the claim that this legacy
path leaves the `speed`/`ventSpeed` bookkeeping un-updated. -/
theorem relayToggle_bookkeeping_counterexample :
    ¬ ((handleRelayToggle bootState).state.ventSpeed = bootState.ventSpeed) := by
  decide

/-- C6 amended: `/relay/toggle` from a state with both relays
de-energized energizes both and replies "1", and it also updates the
bookkeeping directly, setting `ventSpeed` to "max" and `isVentActive` to
true; from a state with either relay energized it de-energizes both,
replies "0", and sets `ventSpeed` to "off" and `isVentActive` to false. -/
theorem relayToggle_behavior (s : DeviceState) :
    (s.relayLowState = false ∧ s.relayMediumState = false →
      (handleRelayToggle s).state.relayLowState = true ∧
      (handleRelayToggle s).state.relayMediumState = true ∧
      (handleRelayToggle s).response.body = "1" ∧
      (handleRelayToggle s).state.ventSpeed = "max" ∧
      (handleRelayToggle s).state.isVentActive = true) ∧
    (s.relayLowState = true ∨ s.relayMediumState = true →
      (handleRelayToggle s).state.relayLowState = false ∧
      (handleRelayToggle s).state.relayMediumState = false ∧
      (handleRelayToggle s).response.body = "0" ∧
      (handleRelayToggle s).state.ventSpeed = "off" ∧
      (handleRelayToggle s).state.isVentActive = false) := by
  constructor
  · intro h
    simp [handleRelayToggle, h.1, h.2]
  · intro h
    rcases h with h | h <;> simp [handleRelayToggle, h]

/-- C6 witness: the amended behavior at the boot state. -/
theorem relayToggle_behavior_witness :
    (handleRelayToggle bootState).state.relayLowState = true ∧
    (handleRelayToggle bootState).state.relayMediumState = true ∧
    (handleRelayToggle bootState).response.body = "1" ∧
    (handleRelayToggle bootState).state.ventSpeed = "max" ∧
    (handleRelayToggle bootState).state.isVentActive = true :=
  (relayToggle_behavior bootState).1 ⟨rfl, rfl⟩

/-- C7: Loading never fails and always yields in-range calibration: every
field of the loaded struct lies in [0, 180], each out-of-range raw field
is replaced by its default (180 / 0 / 32), and every HTTP operation
preserves the in-range property of the stored calibration. -/
theorem load_validates_and_range_preserved :
    (∀ raw : Settings,
      settingsInRange (loadSettingsFromEEPROM raw) ∧
      (raw.angleOpen < 0 ∨ raw.angleOpen > 180 →
        (loadSettingsFromEEPROM raw).angleOpen = 180) ∧
      (raw.angleClose < 0 ∨ raw.angleClose > 180 →
        (loadSettingsFromEEPROM raw).angleClose = 0) ∧
      (raw.anglePark < 0 ∨ raw.anglePark > 180 →
        (loadSettingsFromEEPROM raw).anglePark = 32)) ∧
    (∀ (req : Request) (s : DeviceState),
      settingsInRange s.settings →
      settingsInRange ((dispatch req s).state).settings) := by
  constructor
  · intro raw
    refine ⟨⟨⟨?_, ?_⟩, ⟨?_, ?_⟩, ?_, ?_⟩, ?_, ?_, ?_⟩ <;>
      simp only [loadSettingsFromEEPROM] <;> split <;> omega
  · intro req s h
    cases req with
    | relayToggle =>
        show settingsInRange (handleRelayToggle s).state.settings
        unfold handleRelayToggle
        split <;> exact h
    | servoSet a =>
        show settingsInRange (handleServoSet a s).state.settings
        cases a with
        | none => exact h
        | some v =>
            simp only [handleServoSet]
            split <;> exact h
    | ventLow => exact h
    | ventMedium => exact h
    | ventMax => exact h
    | ventOff => exact h
    | status => exact h
    | settingsSave b =>
        show settingsInRange (handleSettingsSave b s).state.settings
        cases b with
        | none => exact h
        | some j =>
            simp only [handleSettingsSave]
            split
            · next hc => exact hc
            · exact h

/-- C7 witness: a raw struct with all three fields out of range loads to
the documented defaults, and a settings-save request preserves the
in-range invariant from the boot state. -/
theorem load_validates_and_range_preserved_witness :
    (loadSettingsFromEEPROM ⟨200, -1, 300⟩).angleOpen = 180 ∧
    (loadSettingsFromEEPROM ⟨200, -1, 300⟩).angleClose = 0 ∧
    (loadSettingsFromEEPROM ⟨200, -1, 300⟩).anglePark = 32 ∧
    settingsInRange ((dispatch (Request.settingsSave (some roundTripBody)) bootState).state).settings :=
  ⟨(load_validates_and_range_preserved.1 ⟨200, -1, 300⟩).2.1 (Or.inr (by decide)),
   (load_validates_and_range_preserved.1 ⟨200, -1, 300⟩).2.2.1 (Or.inl (by decide)),
   (load_validates_and_range_preserved.1 ⟨200, -1, 300⟩).2.2.2 (Or.inr (by decide)),
   load_validates_and_range_preserved.2 (Request.settingsSave (some roundTripBody))
     bootState ⟨⟨by decide, by decide⟩, ⟨by decide, by decide⟩, by decide, by decide⟩⟩

/-- C8: In the boot state and after every HTTP operation, `isVentActive`
is true exactly when `ventSpeed` is not "off". -/
theorem active_iff_speed_invariant :
    (∀ raw : Settings,
      ((initialState raw).isVentActive = true ↔ (initialState raw).ventSpeed ≠ "off")) ∧
    (∀ (req : Request) (s : DeviceState),
      (s.isVentActive = true ↔ s.ventSpeed ≠ "off") →
      (((dispatch req s).state).isVentActive = true ↔
        ((dispatch req s).state).ventSpeed ≠ "off")) := by
  constructor
  · intro raw
    exact iff_of_false (show ¬(false = true) by decide)
      (show ¬(("off" : String) ≠ "off") by decide)
  · intro req s h
    cases req with
    | relayToggle =>
        show (handleRelayToggle s).state.isVentActive = true ↔
          (handleRelayToggle s).state.ventSpeed ≠ "off"
        unfold handleRelayToggle
        split
        · exact iff_of_false (show ¬(false = true) by decide)
            (show ¬(("off" : String) ≠ "off") by decide)
        · exact iff_of_true rfl (show ("max" : String) ≠ "off" by decide)
    | servoSet a =>
        show (handleServoSet a s).state.isVentActive = true ↔
          (handleServoSet a s).state.ventSpeed ≠ "off"
        cases a with
        | none => exact h
        | some v =>
            simp only [handleServoSet]
            split <;> exact h
    | ventLow => exact iff_of_true rfl (show ("low" : String) ≠ "off" by decide)
    | ventMedium => exact iff_of_true rfl (show ("medium" : String) ≠ "off" by decide)
    | ventMax => exact iff_of_true rfl (show ("max" : String) ≠ "off" by decide)
    | ventOff =>
        exact iff_of_false (show ¬(false = true) by decide)
          (show ¬(("off" : String) ≠ "off") by decide)
    | status => exact h
    | settingsSave b =>
        show (handleSettingsSave b s).state.isVentActive = true ↔
          (handleSettingsSave b s).state.ventSpeed ≠ "off"
        cases b with
        | none => exact h
        | some j =>
            simp only [handleSettingsSave]
            split <;> exact h

/-- C8 witness: the invariant after `/vent/low` from the boot state. -/
theorem active_iff_speed_invariant_witness :
    ((dispatch Request.ventLow bootState).state).isVentActive = true ↔
      ((dispatch Request.ventLow bootState).state).ventSpeed ≠ "off" :=
  active_iff_speed_invariant.2 Request.ventLow bootState (by decide)

/-- C9: Each speed command is idempotent: running it a second time from
the state it produced yields exactly the same handler result — the same
state, the same response, and the same (non-empty) side-effect trace, so
the transition is fully re-run rather than skipped. -/
theorem vent_commands_idempotent (s : DeviceState) :
    (handleVentLow ((handleVentLow s).state) = handleVentLow s ∧
      (handleVentLow s).trace ≠ []) ∧
    (handleVentMedium ((handleVentMedium s).state) = handleVentMedium s ∧
      (handleVentMedium s).trace ≠ []) ∧
    (handleVentMax ((handleVentMax s).state) = handleVentMax s ∧
      (handleVentMax s).trace ≠ []) ∧
    (handleVentOff ((handleVentOff s).state) = handleVentOff s ∧
      (handleVentOff s).trace ≠ []) :=
  ⟨⟨rfl, List.cons_ne_nil _ _⟩, ⟨rfl, List.cons_ne_nil _ _⟩,
   ⟨rfl, List.cons_ne_nil _ _⟩, ⟨rfl, List.cons_ne_nil _ _⟩⟩

/-- Each parsed settings field stays in [0, 180] whenever the current
value it defaults to is: the parse either keeps `current` or installs a
value that passed the `[0, 180]` check. -/
theorem parseField_range (json marker : List Char) (skip : Nat) (delim : Char)
    (cur : Int) (h : cur ≥ 0 ∧ cur ≤ 180) :
    parseField json marker skip delim cur ≥ 0 ∧
      parseField json marker skip delim cur ≤ 180 := by
  unfold parseField
  cases indexOfFrom json marker 0 with
  | none => exact h
  | some pos =>
      dsimp only
      cases indexOfFrom json [delim] (pos + skip) with
      | none => exact h
      | some endPos =>
          dsimp only
          split
          · next hv => exact hv
          · exact h

/-- C10: Whenever the stored calibration is in range before the request
(as load-time validation guarantees), `handleSettingsSave` with any body
present replies 200 "OK": every temporary starts at an in-range field and
is only overwritten by values checked into [0, 180], so the final
validation — and hence the 400 "Invalid angle values" branch — can never
trigger. -/
theorem settingsSave_in_range_always_ok (body : String) (s : DeviceState)
    (h : settingsInRange s.settings) :
    (handleSettingsSave (some body) s).response = ⟨200, "OK"⟩ := by
  unfold handleSettingsSave
  dsimp only
  have hO := parseField_range body.data (String.data "\"angleOpen\":") 11 ','
    s.settings.angleOpen h.1
  have hC := parseField_range body.data (String.data "\"angleClose\":") 12 ','
    s.settings.angleClose h.2.1
  have hP := parseField_range body.data (String.data "\"anglePark\":") 11 '\x7d'
    s.settings.anglePark h.2.2
  split
  · rfl
  · next hc => exact absurd ⟨hO, hC, hP⟩ hc

/-- C10 witness: the round-trip body from the boot state is accepted. -/
theorem settingsSave_in_range_always_ok_witness :
    (handleSettingsSave (some roundTripBody) bootState).response = ⟨200, "OK"⟩ :=
  settingsSave_in_range_always_ok roundTripBody bootState
    ⟨⟨by decide, by decide⟩, ⟨by decide, by decide⟩, by decide, by decide⟩

end Pico
